import Mathlib

/-
Verification of the sql.mit.edu database model (`database.py`).

Strings of the Python 2 source are modelled as `List Char`, where each
character carries the byte value of the original string.  Timestamps
(`datetime.datetime` values) are modelled by the `DateTime` structure below;
the source's calls to `dt.now()` become an explicit `now` parameter.
-/

namespace SqlRemctl

/-- Model of `datetime.datetime(year, month, day)` (time-of-day components of
`dt.now()` are irrelevant to every property proved here, so the model keeps
the calendar fields the source mentions explicitly). -/
structure DateTime where
  year : Nat
  month : Nat
  day : Nat
deriving DecidableEq

/-- The sentinel `dt(1900, 1, 1, tzinfo=None)` the source stores in
`dLastCheck` fields to mean "never checked". -/
def dt1900 : DateTime := ⟨1900, 1, 1⟩

/-- Model of class `Database` (table `DB`): scalar columns set by
`Database.__init__` (the backend-assigned `DatabaseId` is omitted). -/
structure Database where
  Name : List Char
  nBytes : Nat
  dLastCheck : DateTime
  dCreated : DateTime
  bEnabled : Nat
deriving DecidableEq

/-- `Database.__init__(self, Name)` from the source: `nBytes = 0`,
`dLastCheck = dt(1900, 1, 1)`, `dCreated = dt.now()`, `bEnabled = 1`. -/
def Database.init (Name : List Char) (now : DateTime) : Database :=
  ⟨Name, 0, dt1900, now, 1⟩

/-- Model of class `User`: scalar columns set by `User.__init__`
(the backend-assigned `UserId` is omitted). -/
structure User where
  Username : List Char
  Password : List Char
  Name : List Char
  Email : List Char
  UL : Nat
  dCreated : DateTime
  dSignup : DateTime
  bEnabled : Nat
deriving DecidableEq

/-- Model of class `DBQuota`: scalar columns plus the `database`
reference stored by `DBQuota.__init__`. -/
structure DBQuota where
  database : Database
  nBytesSoft : Nat
  nBytesHard : Nat
  dCreated : DateTime
deriving DecidableEq

/-- `DBQuota.__init__(self, database)` from the source. -/
def DBQuota.init (database : Database) (now : DateTime) : DBQuota :=
  ⟨database, 0, 0, now⟩

/-- Model of class `DBOwner`: the `GroupId` column plus the `user` and
`database` references stored by `DBOwner.__init__`. -/
structure DBOwner where
  user : User
  database : Database
  GroupId : Nat
deriving DecidableEq

/-- `DBOwner.__init__(self, user, database)` from the source. -/
def DBOwner.init (user : User) (database : Database) : DBOwner :=
  ⟨user, database, 0⟩

/-- Model of class `UserQuota`: scalar columns plus the `user` reference
stored by `UserQuota.__init__`. -/
structure UserQuota where
  user : User
  nDatabasesHard : Nat
  nBytesSoft : Nat
  nBytesHard : Nat
  dCreated : DateTime
deriving DecidableEq

/-- `UserQuota.__init__(self, user)` from the source. -/
def UserQuota.init (user : User) (now : DateTime) : UserQuota :=
  ⟨user, 20, 90 * 1024 * 1024, 100 * 1024 * 1024, now⟩

/-- Model of class `UserStat`: scalar columns plus the `user` reference
stored by `UserStat.__init__`. -/
structure UserStat where
  user : User
  nDatabases : Nat
  nBytes : Nat
  dLastCheck : DateTime
deriving DecidableEq

/-- `UserStat.__init__(self, user)` from the source: `nDatabases = 0`,
`nBytes = 0`, `dLastCheck = dt(1900, 1, 1)`. -/
def UserStat.init (user : User) : UserStat :=
  ⟨user, 0, 0, dt1900⟩

/-- The base64 alphabet of Python's `base64.b64encode`, as a map from a
sextet value (0..63) to the character holding its ASCII code. -/
def b64char (n : Nat) : Char :=
  Char.ofNat
    (if n < 26 then 65 + n
     else if n < 52 then 71 + n
     else if n < 62 then n - 4
     else if n = 62 then 43
     else 47)

/-- Python's `base64.b64encode` on a byte string: standard RFC 4648 base64
with `=` padding, three input bytes per four output characters. -/
def b64encode : List Char → List Char
  | b1 :: b2 :: b3 :: rest =>
    b64char (b1.toNat / 4) :: b64char (b1.toNat % 4 * 16 + b2.toNat / 16) ::
    b64char (b2.toNat % 16 * 4 + b3.toNat / 64) :: b64char (b3.toNat % 64) ::
    b64encode rest
  | [b1, b2] =>
    [b64char (b1.toNat / 4), b64char (b1.toNat % 4 * 16 + b2.toNat / 16),
     b64char (b2.toNat % 16 * 4), '=']
  | [b1] =>
    [b64char (b1.toNat / 4), b64char (b1.toNat % 4 * 16), '=', '=']
  | [] => []

/-- Inverse of the base64 alphabet map. -/
def b64charDecode (c : Char) : Nat :=
  if 65 ≤ c.toNat ∧ c.toNat ≤ 90 then c.toNat - 65
  else if 97 ≤ c.toNat ∧ c.toNat ≤ 122 then c.toNat - 71
  else if 48 ≤ c.toNat ∧ c.toNat ≤ 57 then c.toNat + 4
  else if c.toNat = 43 then 62
  else 63

/-- Standard base64 decoding (inverse of `b64encode`), used to state that
the password encoding of the source is reversible. -/
def b64decode : List Char → List Char
  | c1 :: c2 :: c3 :: c4 :: rest =>
    if c3 = '=' then
      [Char.ofNat (b64charDecode c1 * 4 + b64charDecode c2 / 16)]
    else if c4 = '=' then
      [Char.ofNat (b64charDecode c1 * 4 + b64charDecode c2 / 16),
       Char.ofNat (b64charDecode c2 % 16 * 16 + b64charDecode c3 / 4)]
    else
      Char.ofNat (b64charDecode c1 * 4 + b64charDecode c2 / 16) ::
      Char.ofNat (b64charDecode c2 % 16 * 16 + b64charDecode c3 / 4) ::
      Char.ofNat (b64charDecode c3 % 4 * 64 + b64charDecode c4) ::
      b64decode rest
  | _ => []

/-- `User.set_password(self, Password)` from the source:
`self.Password = base64.b64encode(Password)`. -/
def User.set_password (u : User) (Password : List Char) : User :=
  { u with Password := b64encode Password }

/-- `User.__init__(self, Username, Password, Name, Email)` from the source:
`UL = 1`, both timestamps set to the current time, `bEnabled = 1`, and the
password stored through `set_password`. -/
def User.init (Username Password Name Email : List Char) (now : DateTime) : User :=
  User.set_password
    ⟨Username, [], Name, Email, 1, now, now, 1⟩ Password

/-- Python's `str.replace(c, rep)` specialised to a single-character
pattern: every occurrence of `c` is replaced by the string `rep`. -/
def replaceChar (c : Char) (rep : List Char) : List Char → List Char
  | [] => []
  | x :: xs =>
    if x = c then rep ++ replaceChar c rep xs
    else x :: replaceChar c rep xs

/-- `formatify(instr)` from the source: `instr.replace('%', '%%')`. -/
def formatify (instr : List Char) : List Char :=
  replaceChar '%' [ '%', '%'] instr

/-- The backtick character used by the backend's identifier quoting. -/
def backtickChar : Char := Char.ofNat 96

/-- Modelled from the spec: the backend's identifier-quoting rule used by
`compiler.preparer.quote_identifier` (an external collaborator of the
source): the identifier is wrapped in backticks with embedded backticks
doubled. -/
def quote_identifier (value : List Char) : List Char :=
  backtickChar :: replaceChar backtickChar [backtickChar, backtickChar] value
    ++ [backtickChar]

/-- Modelled from the spec: the backend's string-literal escaping rule used
by `compiler.sql_compiler.render_literal_value(x, sqlalchemy.String)` (an
external collaborator of the source): the value is wrapped in single quotes
with embedded single quotes doubled. -/
def render_literal_value (value : List Char) : List Char :=
  '\'' :: replaceChar '\'' [ '\'', '\''] value ++ [ '\'']

/-- `visit_create_database` from the source:
`formatify("CREATE DATABASE %s" % quote_identifier(name))`. -/
def visit_create_database (name : List Char) : List Char :=
  formatify ("CREATE DATABASE ".data ++ quote_identifier name)

/-- `visit_drop_database` from the source:
`formatify("DROP DATABASE %s %s" % (if_exists, quote_identifier(name)))`
with `if_exists = "IF EXISTS" if ignore else ""`. -/
def visit_drop_database (name : List Char) (ignore : Bool) : List Char :=
  formatify ("DROP DATABASE ".data ++ (if ignore then "IF EXISTS".data else [])
    ++ " ".data ++ quote_identifier name)

/-- `visit_create_user` from the source:
`formatify("CREATE USER %s@%s IDENTIFIED BY %s" % (literals))`. -/
def visit_create_user (name host passwd : List Char) : List Char :=
  formatify ("CREATE USER ".data ++ render_literal_value name ++ "@".data
    ++ render_literal_value host ++ " IDENTIFIED BY ".data
    ++ render_literal_value passwd)

/-- `visit_drop_user` from the source:
`formatify("DROP USER %s@%s" % (literals))`. -/
def visit_drop_user (name host : List Char) : List Char :=
  formatify ("DROP USER ".data ++ render_literal_value name ++ "@".data
    ++ render_literal_value host)

/-- `visit_change_password` from the source:
`formatify("SET PASSWORD FOR %s@%s = PASSWORD(%s)" % (literals))`. -/
def visit_change_password (name host passwd : List Char) : List Char :=
  formatify ("SET PASSWORD FOR ".data ++ render_literal_value name ++ "@".data
    ++ render_literal_value host ++ " = PASSWORD(".data
    ++ render_literal_value passwd ++ ")".data)

/-- `visit_grant` from the source:
`formatify("GRANT ALL ON %s.* TO %s@%s" % (identifier, literals))`. -/
def visit_grant (db user host : List Char) : List Char :=
  formatify ("GRANT ALL ON ".data ++ quote_identifier db ++ ".* TO ".data
    ++ render_literal_value user ++ "@".data ++ render_literal_value host)

/-- `visit_revoke` from the source:
`formatify("REVOKE ALL ON %s.* FROM %s@%s" % (identifier, literals))`. -/
def visit_revoke (db user host : List Char) : List Char :=
  formatify ("REVOKE ALL ON ".data ++ quote_identifier db ++ ".* FROM ".data
    ++ render_literal_value user ++ "@".data ++ render_literal_value host)

mutual

/-- A statement text has no unpaired `%`: scanning left to right, every
`%` is immediately followed by a second `%` consumed with it, so a
downstream `%`-placeholder substitution pass sees only escaped `%%`. -/
def noUnpairedPercent : List Char → Bool
  | [] => true
  | c :: rest =>
    if c = '%' then noUnpairedPercentTail rest else noUnpairedPercent rest

/-- After a `%`, the next character must be a second `%` consumed with it. -/
def noUnpairedPercentTail : List Char → Bool
  | [] => false
  | d :: rest2 => if d = '%' then noUnpairedPercent rest2 else false

end

/-- Scanner for single-quoted string literals: `inLit` says whether the
scan is currently inside a literal; inside a literal a doubled `''` is an
escaped quote.  The scan succeeds when it ends outside a literal, i.e.
every quote character is either a literal delimiter or escaped. -/
def scanQuotes : Bool → List Char → Bool
  | false, [] => true
  | true, [] => false
  | false, c :: rest =>
    if c = '\'' then scanQuotes true rest else scanQuotes false rest
  | true, c :: rest =>
    if c = '\'' then
      match rest with
      | [] => true
      | d :: rest2 =>
        if d = '\'' then scanQuotes true rest2 else scanQuotes false (d :: rest2)
    else scanQuotes true rest

/-- A statement text is quote-guarded when every single-quote character in
it is either a delimiter of a string literal or an escaped (doubled) quote
inside one. -/
def quotesGuarded (s : List Char) : Bool := scanQuotes false s

/-- Boolean prefix test on character lists. -/
def strPrefixOf : List Char → List Char → Bool
  | [], _ => true
  | _ :: _, [] => false
  | a :: as, b :: bs => if a = b then strPrefixOf as bs else false

/-- Modelled from the spec: §4.2 Quota Policy, `canCreateDatabase(user)` is
true iff `stat.nDatabases < quota.nDatabasesHard` (the user's stat and
quota rows are passed explicitly; this function is described by the spec
but absent from `src/`). -/
def canCreateDatabase (stat : UserStat) (quota : UserQuota) : Bool :=
  stat.nDatabases < quota.nDatabasesHard

/-- Modelled from the spec: §4.2 Quota Policy, `usageStatus(user)` compares
`stat.nBytes` against `quota.nBytesSoft` and `quota.nBytesHard` ("exceeded"
meaning strictly above the threshold). -/
inductive UsageStatus where
  | OK
  | SoftExceeded
  | HardExceeded
deriving DecidableEq

/-- Modelled from the spec: §4.2, the byte-usage comparison of the Quota
Policy (absent from `src/`). -/
def usageStatus (stat : UserStat) (quota : UserQuota) : UsageStatus :=
  if quota.nBytesHard < stat.nBytes then .HardExceeded
  else if quota.nBytesSoft < stat.nBytes then .SoftExceeded
  else .OK

/-- Errors of the Provisioning Engine that the modelled operations can
raise (spec §7). -/
inductive ProvError where
  | QuotaExceeded
  | DuplicateDatabaseName
deriving DecidableEq

/-- Modelled from the spec: the state a Provisioning Engine operation acts
on for one owning user — the user row, its stat and quota rows, the
Database/DBOwner/DBQuota rows created so far, the DDL statements issued to
the backend, and the host of the user's backend account. -/
structure ProvState where
  user : User
  stat : UserStat
  quota : UserQuota
  databases : List Database
  owners : List DBOwner
  dbQuotas : List DBQuota
  issued : List (List Char)
  host : List Char
deriving DecidableEq

/-- Modelled from the spec: §4.3 `CreateDatabase(name, owningUser)` — it
checks `canCreateDatabase` and fails with `QuotaExceeded` when false,
fails with `DuplicateDatabaseName` when the name already exists, and
otherwise creates the Database row, the DBOwner link (GroupId 0), the
default DBQuota, and issues the `CREATE DATABASE` and `GRANT ALL` DDL.
Per §3 the stat's `nDatabases` is the count of owned databases (kept in
sync by the usage-accounting collaborator), so a successful create
increments it. -/
def createDatabaseOp (st : ProvState) (name : List Char) (now : DateTime) :
    Except ProvError ProvState :=
  if canCreateDatabase st.stat st.quota then
    if name ∈ st.databases.map Database.Name then
      .error .DuplicateDatabaseName
    else
      .ok { st with
        databases := st.databases ++ [Database.init name now],
        owners := st.owners ++ [DBOwner.init st.user (Database.init name now)],
        dbQuotas := st.dbQuotas ++ [DBQuota.init (Database.init name now) now],
        stat := { st.stat with nDatabases := st.stat.nDatabases + 1 },
        issued := st.issued ++
          [visit_create_database name, visit_grant name st.user.Username st.host] }
  else
    .error .QuotaExceeded

/-- Run a sequence of `CreateDatabase` requests: each call acts on the
state left by the previous one (a failed call leaves the state unchanged),
and the outcome of each call is recorded (`none` = success). -/
def runCreates (now : DateTime) : ProvState → List (List Char) →
    List (Option ProvError) × ProvState
  | st, [] => ([], st)
  | st, n :: ns =>
    match createDatabaseOp st n now with
    | .ok st2 =>
      let p := runCreates now st2 ns
      (none :: p.1, p.2)
    | .error e =>
      let p := runCreates now st ns
      (some e :: p.1, p.2)

/-- The state of a freshly provisioned user: stat from `UserStat.__init__`,
the given quota row, and no databases yet. -/
def freshProvState (u : User) (quota : UserQuota) (host : List Char) : ProvState :=
  ⟨u, UserStat.init u, quota, [], [], [], [], host⟩

/-- Modelled from the spec: the record-store/backend state that
`ChangePassword` acts on — the stored User rows and the DDL statements
issued to the backend. -/
structure EngineState where
  users : List User
  issued : List (List Char)
deriving DecidableEq

/-- Modelled from the spec: §4.3 `ChangePassword(username, host,
newPassword)` issues the `SET PASSWORD` DDL against the backend account and
touches nothing else — in particular it does not update the `User.Password`
record column. -/
def changePassword (st : EngineState) (username host newPassword : List Char) :
    EngineState :=
  { st with issued := st.issued ++ [visit_change_password username host newPassword] }

/-- All characters of a string are byte values (Python 2 `str`). -/
def allBytes (s : List Char) : Bool :=
  s.all fun c => c.toNat < 256

/-- Replacement distributes over append. -/
theorem replaceChar_append (c : Char) (rep a b : List Char) :
    replaceChar c rep (a ++ b) = replaceChar c rep a ++ replaceChar c rep b := by
  induction a with
  | nil => simp [replaceChar]
  | cons x xs ih =>
    by_cases hx : x = c <;> simp [replaceChar, hx, ih, List.append_assoc]

/-- The `%`-escaping pass distributes over append. -/
theorem formatify_append (a b : List Char) :
    formatify (a ++ b) = formatify a ++ formatify b :=
  replaceChar_append _ _ a b

/-- The `%`-escaping pass leaves no unpaired `%` in its output, whatever
the input: this is the heart of the `formatify` workaround. -/
theorem noUnpairedPercent_formatify (s : List Char) :
    noUnpairedPercent (formatify s) = true := by
  induction s with
  | nil => rfl
  | cons c rest ih =>
    simp only [formatify] at ih ⊢
    by_cases hc : c = '%'
    · subst hc
      simp [replaceChar, noUnpairedPercent, noUnpairedPercentTail, ih]
    · simp [replaceChar, noUnpairedPercent, hc, ih]

/-- A list is a prefix of itself followed by anything. -/
theorem strPrefixOf_append_right (p r : List Char) :
    strPrefixOf p (p ++ r) = true := by
  induction p with
  | nil => rfl
  | cons a as ih => simp [strPrefixOf, ih]

/-- Decoding the base64 alphabet map recovers the sextet. -/
theorem b64charDecode_b64char : ∀ n, n < 64 → b64charDecode (b64char n) = n := by
  decide

/-- No alphabet character is the padding character. -/
theorem b64char_ne_padChar : ∀ n, n < 64 → ¬ b64char n = '=' := by
  decide

/-- Standard base64 decoding inverts `b64encode` on byte strings. -/
theorem b64decode_b64encode (s : List Char) (h : ∀ c ∈ s, c.toNat < 256) :
    b64decode (b64encode s) = s := by
  induction s using b64encode.induct with
  | case1 b1 b2 b3 rest ih =>
    have h1 : b1.toNat < 256 := h b1 (by simp)
    have h2 : b2.toNat < 256 := h b2 (by simp)
    have h3 : b3.toNat < 256 := h b3 (by simp)
    simp only [b64encode, b64decode]
    rw [if_neg (b64char_ne_padChar _ (by omega)),
      if_neg (b64char_ne_padChar _ (by omega)),
      b64charDecode_b64char _ (by omega), b64charDecode_b64char _ (by omega),
      b64charDecode_b64char _ (by omega), b64charDecode_b64char _ (by omega),
      ih (fun c hc => h c (by simp [hc]))]
    have e1 : b1.toNat / 4 * 4 + (b1.toNat % 4 * 16 + b2.toNat / 16) / 16
        = b1.toNat := by omega
    have e2 : (b1.toNat % 4 * 16 + b2.toNat / 16) % 16 * 16
        + (b2.toNat % 16 * 4 + b3.toNat / 64) / 4 = b2.toNat := by omega
    have e3 : (b2.toNat % 16 * 4 + b3.toNat / 64) % 4 * 64 + b3.toNat % 64
        = b3.toNat := by omega
    rw [e1, e2, e3, Char.ofNat_toNat, Char.ofNat_toNat, Char.ofNat_toNat]
  | case2 b1 b2 =>
    have h1 : b1.toNat < 256 := h b1 (by simp)
    have h2 : b2.toNat < 256 := h b2 (by simp)
    simp only [b64encode, b64decode]
    rw [if_neg (b64char_ne_padChar _ (by omega)), if_pos trivial,
      b64charDecode_b64char _ (by omega), b64charDecode_b64char _ (by omega),
      b64charDecode_b64char _ (by omega)]
    have e1 : b1.toNat / 4 * 4 + (b1.toNat % 4 * 16 + b2.toNat / 16) / 16
        = b1.toNat := by omega
    have e2 : (b1.toNat % 4 * 16 + b2.toNat / 16) % 16 * 16
        + b2.toNat % 16 * 4 / 4 = b2.toNat := by omega
    rw [e1, e2, Char.ofNat_toNat, Char.ofNat_toNat]
  | case3 b1 =>
    have h1 : b1.toNat < 256 := h b1 (by simp)
    simp only [b64encode, b64decode]
    rw [if_pos trivial, b64charDecode_b64char _ (by omega),
      b64charDecode_b64char _ (by omega)]
    have e1 : b1.toNat / 4 * 4 + b1.toNat % 4 * 16 / 16 = b1.toNat := by omega
    rw [e1, Char.ofNat_toNat]
  | case4 => rfl

/-- When the quota admits another database and the name is fresh,
`createDatabaseOp` succeeds and creates the row, the owner link, the
default DBQuota, and the two DDL statements. -/
theorem createDatabaseOp_ok (st : ProvState) (name : List Char) (now : DateTime)
    (h1 : st.stat.nDatabases < st.quota.nDatabasesHard)
    (h2 : name ∉ st.databases.map Database.Name) :
    createDatabaseOp st name now = .ok { st with
      databases := st.databases ++ [Database.init name now],
      owners := st.owners ++ [DBOwner.init st.user (Database.init name now)],
      dbQuotas := st.dbQuotas ++ [DBQuota.init (Database.init name now) now],
      stat := { st.stat with nDatabases := st.stat.nDatabases + 1 },
      issued := st.issued ++
        [visit_create_database name, visit_grant name st.user.Username st.host] } := by
  simp [createDatabaseOp, canCreateDatabase, h1, h2]

/-- When the quota ceiling is reached, `createDatabaseOp` fails with
`QuotaExceeded` before any mutation. -/
theorem createDatabaseOp_quotaFail (st : ProvState) (name : List Char)
    (now : DateTime) (h1 : ¬ st.stat.nDatabases < st.quota.nDatabasesHard) :
    createDatabaseOp st name now = .error .QuotaExceeded := by
  simp [createDatabaseOp, canCreateDatabase, h1]

/-- When the quota admits another database but the name already exists,
`createDatabaseOp` fails with `DuplicateDatabaseName`. -/
theorem createDatabaseOp_dupFail (st : ProvState) (name : List Char)
    (now : DateTime) (h1 : st.stat.nDatabases < st.quota.nDatabasesHard)
    (h2 : name ∈ st.databases.map Database.Name) :
    createDatabaseOp st name now = .error .DuplicateDatabaseName := by
  simp [createDatabaseOp, canCreateDatabase, h1, h2]

/-- Running creates never pushes the stat's database count above the quota
ceiling it started under. -/
theorem runCreates_quota_inv (now : DateTime) (ns : List (List Char)) :
    ∀ st : ProvState, st.stat.nDatabases ≤ st.quota.nDatabasesHard →
      (runCreates now st ns).2.stat.nDatabases ≤ st.quota.nDatabasesHard := by
  induction ns with
  | nil => intro st h; simpa [runCreates] using h
  | cons n ns ih =>
    intro st h
    by_cases hq : st.stat.nDatabases < st.quota.nDatabasesHard
    · by_cases hd : n ∈ st.databases.map Database.Name
      · simp only [runCreates, createDatabaseOp_dupFail st n now hq hd]
        exact ih st h
      · simp only [runCreates, createDatabaseOp_ok st n now hq hd]
        exact ih _ (by simpa using hq)
    · simp only [runCreates, createDatabaseOp_quotaFail st n now hq]
      exact ih st h

/-- Running creates leaves the quota row unchanged. -/
theorem runCreates_quota_eq (now : DateTime) (ns : List (List Char)) :
    ∀ st : ProvState, (runCreates now st ns).2.quota = st.quota := by
  induction ns with
  | nil => intro st; simp [runCreates]
  | cons n ns ih =>
    intro st
    by_cases hq : st.stat.nDatabases < st.quota.nDatabasesHard
    · by_cases hd : n ∈ st.databases.map Database.Name
      · simp only [runCreates, createDatabaseOp_dupFail st n now hq hd]
        exact ih st
      · simp only [runCreates, createDatabaseOp_ok st n now hq hd]
        exact ih _
    · simp only [runCreates, createDatabaseOp_quotaFail st n now hq]
      exact ih st

/-- With pairwise-distinct names none of which exists yet, a run of
creates succeeds until the quota headroom is exhausted and fails with
`QuotaExceeded` from then on. -/
theorem runCreates_results (now : DateTime) (ns : List (List Char)) :
    ∀ st : ProvState, ns.Nodup →
      (∀ n ∈ ns, n ∉ st.databases.map Database.Name) →
      (runCreates now st ns).1 =
        List.replicate
          (min ns.length (st.quota.nDatabasesHard - st.stat.nDatabases)) none ++
        List.replicate
          (ns.length - (st.quota.nDatabasesHard - st.stat.nDatabases))
          (some ProvError.QuotaExceeded) := by
  induction ns with
  | nil => intro st _ _; simp [runCreates]
  | cons n ns ih =>
    intro st hnd hfresh
    by_cases hq : st.stat.nDatabases < st.quota.nDatabasesHard
    · have hd : n ∉ st.databases.map Database.Name := hfresh n (by simp)
      simp only [runCreates, createDatabaseOp_ok st n now hq hd]
      have hfresh2 : ∀ m ∈ ns,
          m ∉ (st.databases ++ [Database.init n now]).map Database.Name := by
        intro m hm
        simp only [List.map_append, List.map_cons, List.map_nil,
          List.mem_append, List.mem_singleton, Database.init]
        push_neg
        refine ⟨hfresh m (by simp [hm]), ?_⟩
        intro hmn
        exact absurd hm (by simpa [hmn] using (List.nodup_cons.mp hnd).1)
      have hrec := ih { st with
          databases := st.databases ++ [Database.init n now],
          owners := st.owners ++ [DBOwner.init st.user (Database.init n now)],
          dbQuotas := st.dbQuotas ++ [DBQuota.init (Database.init n now) now],
          stat := { st.stat with nDatabases := st.stat.nDatabases + 1 },
          issued := st.issued ++
            [visit_create_database n, visit_grant n st.user.Username st.host] }
        (List.Nodup.of_cons hnd) hfresh2
      rw [hrec]
      obtain ⟨R, hR⟩ : ∃ R, st.quota.nDatabasesHard - st.stat.nDatabases = R + 1 :=
        ⟨st.quota.nDatabasesHard - st.stat.nDatabases - 1, by omega⟩
      have hR2 : st.quota.nDatabasesHard - (st.stat.nDatabases + 1) = R := by omega
      simp only [hR2, hR, List.length_cons, Nat.succ_min_succ, Nat.succ_sub_succ,
        List.replicate_succ, List.cons_append]
    · simp only [runCreates, createDatabaseOp_quotaFail st n now hq]
      have hrec := ih st (List.Nodup.of_cons hnd)
        (fun m hm => hfresh m (by simp [hm]))
      rw [hrec]
      have h0 : st.quota.nDatabasesHard - st.stat.nDatabases = 0 := by omega
      simp [h0, List.replicate_succ]

/-- A sample user record used to instantiate hypothesis-bearing theorems. -/
def sampleUser : User :=
  User.init ("alice".data) ("hunter2".data) ("Alice".data) ("alice@mit.edu".data)
    dt1900

/-- A sample quota row with a ceiling of one database. -/
def sampleQuota1 : UserQuota := ⟨sampleUser, 1, 0, 0, dt1900⟩

/-- C1: `canCreateDatabase(user)` is true iff `stat.nDatabases <
quota.nDatabasesHard`, and `CreateDatabase` called `nDatabasesHard + 1`
times with distinct names on a fresh user succeeds the first
`nDatabasesHard` times (`none` outcomes) and fails with `QuotaExceeded`
thereafter, while the stat's `nDatabases` count never exceeds
`nDatabasesHard`. -/
theorem create_database_quota_enforcement :
    (∀ (stat : UserStat) (quota : UserQuota),
        canCreateDatabase stat quota = true ↔
          stat.nDatabases < quota.nDatabasesHard) ∧
    ∀ (u : User) (quota : UserQuota) (host : List Char) (now : DateTime)
      (names : List (List Char)),
      names.length = quota.nDatabasesHard + 1 → names.Nodup →
      (runCreates now (freshProvState u quota host) names).1
          = List.replicate quota.nDatabasesHard none
            ++ [some ProvError.QuotaExceeded] ∧
      ∀ k, (runCreates now (freshProvState u quota host)
              (names.take k)).2.stat.nDatabases ≤ quota.nDatabasesHard := by
  constructor
  · intro stat quota
    simp [canCreateDatabase]
  · intro u quota host now names hlen hnd
    constructor
    · have hfresh : ∀ n ∈ names,
          n ∉ (freshProvState u quota host).databases.map Database.Name := by
        intro n _
        simp [freshProvState]
      have h := runCreates_results now names (freshProvState u quota host) hnd hfresh
      rw [h]
      have hstat : (freshProvState u quota host).stat.nDatabases = 0 := rfl
      have hquota : (freshProvState u quota host).quota = quota := rfl
      rw [hstat, hquota, hlen]
      have e1 : min (quota.nDatabasesHard + 1) (quota.nDatabasesHard - 0)
          = quota.nDatabasesHard := by omega
      have e2 : quota.nDatabasesHard + 1 - (quota.nDatabasesHard - 0) = 1 := by
        omega
      rw [e1, e2]
      simp
    · intro k
      exact runCreates_quota_inv now (names.take k) (freshProvState u quota host)
        (by simp [freshProvState, UserStat.init])

/-- Witness for C1 at a quota ceiling of one database and two distinct
names: the first create succeeds, the second fails with `QuotaExceeded`,
and the stat count stays at the ceiling. -/
theorem create_database_quota_enforcement_witness :
    ([ "db1".data, "db2".data ] : List (List Char)).length
        = sampleQuota1.nDatabasesHard + 1 ∧
    ([ "db1".data, "db2".data ] : List (List Char)).Nodup ∧
    (runCreates dt1900 (freshProvState sampleUser sampleQuota1 ("localhost".data))
        [ "db1".data, "db2".data ]).1
      = List.replicate sampleQuota1.nDatabasesHard none
        ++ [some ProvError.QuotaExceeded] ∧
    (runCreates dt1900 (freshProvState sampleUser sampleQuota1 ("localhost".data))
        (([ "db1".data, "db2".data ] : List (List Char)).take 2)).2.stat.nDatabases
      ≤ sampleQuota1.nDatabasesHard :=
  ⟨by decide, by decide,
   (create_database_quota_enforcement.2 sampleUser sampleQuota1 ("localhost".data)
     dt1900 [ "db1".data, "db2".data ] (by decide) (by decide)).1,
   (create_database_quota_enforcement.2 sampleUser sampleQuota1 ("localhost".data)
     dt1900 [ "db1".data, "db2".data ] (by decide) (by decide)).2 2⟩

/-- C2: for every DDL operation and every input, the final rendered
statement contains no unpaired `%`: `formatify` is the purely textual
escaping pass applied after template rendering, identifier quoting and
literal rendering, and before the statement reaches the executor. -/
theorem rendered_statements_percent_escaped :
    ∀ (name host passwd db user : List Char) (ignore : Bool),
      noUnpairedPercent (visit_create_database name) = true ∧
      noUnpairedPercent (visit_drop_database name ignore) = true ∧
      noUnpairedPercent (visit_create_user name host passwd) = true ∧
      noUnpairedPercent (visit_drop_user name host) = true ∧
      noUnpairedPercent (visit_change_password name host passwd) = true ∧
      noUnpairedPercent (visit_grant db user host) = true ∧
      noUnpairedPercent (visit_revoke db user host) = true := by
  intro name host passwd db user ignore
  refine ⟨?_, ?_, ?_, ?_, ?_, ?_, ?_⟩ <;>
    exact noUnpairedPercent_formatify _

/-- C3: rendering the CreateUser statement for name `o'brien`, host
`localhost`, password `p@55%` produces the template with each value
rendered by the literal-escaping rule; the result has no unpaired `%` and
every quote character is a literal delimiter or an escaped quote. -/
theorem create_user_obrien_rendering :
    visit_create_user ("o'brien".data) ("localhost".data) ("p@55%".data)
        = "CREATE USER 'o''brien'@'localhost' IDENTIFIED BY 'p@55%%'".data ∧
    noUnpairedPercent
        (visit_create_user ("o'brien".data) ("localhost".data) ("p@55%".data))
      = true ∧
    quotesGuarded
        (visit_create_user ("o'brien".data) ("localhost".data) ("p@55%".data))
      = true :=
  ⟨rfl, rfl, rfl⟩

/-- C4: every newly created UserQuota has `nDatabasesHard = 20`,
`nBytesSoft = 90 MiB`, `nBytesHard = 100 MiB`, and every newly created
DBQuota has both byte quotas zero. -/
theorem quota_creation_defaults :
    ∀ (u : User) (d : Database) (now : DateTime),
      (UserQuota.init u now).nDatabasesHard = 20 ∧
      (UserQuota.init u now).nBytesSoft = 90 * 1024 * 1024 ∧
      (UserQuota.init u now).nBytesHard = 100 * 1024 * 1024 ∧
      (DBQuota.init d now).nBytesSoft = 0 ∧
      (DBQuota.init d now).nBytesHard = 0 :=
  fun _ _ _ => ⟨rfl, rfl, rfl, rfl, rfl⟩

/-- C5: a newly created Database record has `nBytes = 0`, the 1900-01-01
"never checked" sentinel in `dLastCheck`, and `bEnabled = 1`, and the
DBOwner link created with it carries `GroupId = 0`. -/
theorem database_creation_defaults :
    ∀ (name : List Char) (now : DateTime) (u : User) (d : Database),
      (Database.init name now).Name = name ∧
      (Database.init name now).nBytes = 0 ∧
      (Database.init name now).dLastCheck = dt1900 ∧
      (Database.init name now).bEnabled = 1 ∧
      (DBOwner.init u d).GroupId = 0 :=
  fun _ _ _ _ => ⟨rfl, rfl, rfl, rfl, rfl⟩

/-- C6: a newly created User record has `UL = 1`, `bEnabled = 1`, both
`dCreated` and `dSignup` set to the current time, and its Password column
holding the base64 encoding of the given password, not the plaintext. -/
theorem user_creation_defaults :
    ∀ (Username Password Name Email : List Char) (now : DateTime),
      (User.init Username Password Name Email now).UL = 1 ∧
      (User.init Username Password Name Email now).bEnabled = 1 ∧
      (User.init Username Password Name Email now).dCreated = now ∧
      (User.init Username Password Name Email now).dSignup = now ∧
      (User.init Username Password Name Email now).Password
        = b64encode Password :=
  fun _ _ _ _ _ => ⟨rfl, rfl, rfl, rfl, rfl⟩

/-- C7: the rendered DropDatabase statement follows the template
`DROP DATABASE [IF EXISTS] «name»` with the name rendered by the
identifier-quoting rule, and the statement starts with the IF EXISTS
clause exactly when the ignore flag is set (when it is not, the source
leaves a doubled space where the clause would be). -/
theorem drop_database_template :
    ∀ name : List Char,
      visit_drop_database name true
          = formatify ("DROP DATABASE IF EXISTS ".data ++ quote_identifier name) ∧
      visit_drop_database name false
          = formatify ("DROP DATABASE  ".data ++ quote_identifier name) ∧
      strPrefixOf ("DROP DATABASE IF EXISTS ".data)
          (visit_drop_database name true) = true ∧
      strPrefixOf ("DROP DATABASE IF EXISTS ".data)
          (visit_drop_database name false) = false := by
  intro name
  refine ⟨rfl, rfl, ?_, rfl⟩
  have h2 : visit_drop_database name true
      = formatify ("DROP DATABASE IF EXISTS ".data ++ quote_identifier name) := rfl
  rw [h2, formatify_append]
  have h3 : formatify ("DROP DATABASE IF EXISTS ".data)
      = "DROP DATABASE IF EXISTS ".data := rfl
  rw [h3]
  exact strPrefixOf_append_right _ _

/-- C8: the stored `User.Password` is a reversible encoding: decoding the
value stored by `set_password` recovers the original plaintext for every
byte-string password. -/
theorem password_encoding_reversible :
    ∀ (u : User) (pw : List Char), allBytes pw = true →
      b64decode ((User.set_password u pw).Password) = pw := by
  intro u pw h
  have h' : ∀ c ∈ pw, c.toNat < 256 := by
    intro c hc
    exact of_decide_eq_true (List.all_eq_true.mp h c hc)
  exact b64decode_b64encode pw h'

/-- Witness for C8: the password `secret` round-trips through the stored
encoding. -/
theorem password_encoding_reversible_witness :
    allBytes ("secret".data) = true ∧
    b64decode ((User.set_password sampleUser ("secret".data)).Password)
      = "secret".data :=
  ⟨by decide, password_encoding_reversible sampleUser ("secret".data) (by decide)⟩

/-- C9: ChangePassword issues exactly one statement — the rendered
SET PASSWORD text — and leaves every stored User record unchanged. -/
theorem change_password_frame :
    ∀ (st : EngineState) (username host newPassword : List Char),
      (changePassword st username host newPassword).users = st.users ∧
      (changePassword st username host newPassword).issued
          = st.issued ++ [visit_change_password username host newPassword] ∧
      strPrefixOf ("SET PASSWORD FOR ".data)
          (visit_change_password username host newPassword) = true := by
  intro st username host newPassword
  refine ⟨rfl, rfl, ?_⟩
  have h2 : visit_change_password username host newPassword
      = formatify ("SET PASSWORD FOR ".data ++ (render_literal_value username
          ++ ("@".data ++ (render_literal_value host ++ (" = PASSWORD(".data
          ++ (render_literal_value newPassword ++ ")".data)))))) := by
    simp only [visit_change_password, List.append_assoc]
  rw [h2, formatify_append]
  have h3 : formatify ("SET PASSWORD FOR ".data) = "SET PASSWORD FOR ".data := rfl
  rw [h3]
  exact strPrefixOf_append_right _ _

/-- C10: a newly created UserStat starts at `nDatabases = 0`, `nBytes = 0`
with the same 1900-01-01 "never checked" sentinel as databases, so a fresh
user is under every positive quota ceiling: `canCreateDatabase` holds and
the usage status is OK. -/
theorem user_stat_fresh_under_quota :
    ∀ (u : User) (q : UserQuota) (name : List Char) (now : DateTime),
      (UserStat.init u).nDatabases = 0 ∧
      (UserStat.init u).nBytes = 0 ∧
      (UserStat.init u).dLastCheck = (Database.init name now).dLastCheck ∧
      (0 < q.nDatabasesHard → canCreateDatabase (UserStat.init u) q = true) ∧
      (0 < q.nBytesSoft → 0 < q.nBytesHard →
        usageStatus (UserStat.init u) q = .OK) := by
  intro u q name now
  refine ⟨rfl, rfl, rfl, ?_, ?_⟩
  · intro h
    simp [canCreateDatabase, UserStat.init, h]
  · intro h1 h2
    simp [usageStatus, UserStat.init]

/-- Witness for C10: the default quota ceilings are positive and a fresh
user's stat passes both policy checks. -/
theorem user_stat_fresh_under_quota_witness :
    0 < (UserQuota.init sampleUser dt1900).nDatabasesHard ∧
    0 < (UserQuota.init sampleUser dt1900).nBytesSoft ∧
    0 < (UserQuota.init sampleUser dt1900).nBytesHard ∧
    canCreateDatabase (UserStat.init sampleUser)
        (UserQuota.init sampleUser dt1900) = true ∧
    usageStatus (UserStat.init sampleUser)
        (UserQuota.init sampleUser dt1900) = .OK :=
  ⟨by decide, by decide, by decide,
   (user_stat_fresh_under_quota sampleUser (UserQuota.init sampleUser dt1900)
     [] dt1900).2.2.2.1 (by decide),
   (user_stat_fresh_under_quota sampleUser (UserQuota.init sampleUser dt1900)
     [] dt1900).2.2.2.2 (by decide) (by decide)⟩

end SqlRemctl
